import Mathlib

/-!
Verification of the feature-encoding core of the Uber ride cancellation
prediction app (`src/app.py`).

The app builds a Python dict of eight raw ride attributes, runs it through
`preprocess` — which computes missing-value flags, imputes zeros, derives
status flags, extracts the pickup hour, integer-encodes the two categorical
fields, and returns a fixed-order 15-column row — and feeds the row to a
binary classifier.

We shallowly embed the Python program: Python values become the inductive
`Value` (floats as rationals — `preprocess` only copies and compares them,
it performs no float arithmetic), the mutable dict becomes an association
list threaded through the computation, and Python exceptions (`KeyError`
for a dict/enum-map miss, `AttributeError` for `.hour` on a non-time value)
become the error branch of `Except String`. `preprocess` is embedded
statement by statement; its five comment-delimited blocks become the five
phase functions below, sequenced in the same order.
-/

/-- A Python value as it appears in this program: a number (Python int or
float), a string, `None`, or a `datetime` (of which only `.hour` is used;
we also keep the minute). -/
inductive Value where
  | num (x : ℚ)
  | str (s : String)
  | pynone
  | time (hour : ℕ) (minute : ℕ)
deriving DecidableEq, Repr

/-- The Python dict, modelled as an insertion-ordered association list. -/
def Dict := List (String × Value)

instance : DecidableEq Dict := by unfold Dict; infer_instance

/-- Python `d[k]` read: first entry with the key, else nothing (`KeyError`). -/
def lookupk : Dict → String → Option Value
  | [], _ => Option.none
  | (k', v) :: rest, k => if k' = k then some v else lookupk rest k

/-- Python `d[k] = v`: overwrite in place if the key exists (dicts keep
insertion order on overwrite), otherwise append a new entry. -/
def setk : Dict → String → Value → Dict
  | [], k, v => [(k, v)]
  | (k', w) :: rest, k, v =>
      if k' = k then (k, v) :: rest else (k', w) :: setk rest k v

/-- A dict read that raises `KeyError` when the key is absent. -/
def getk (d : Dict) (k : String) : Except String Value :=
  match lookupk d k with
  | some v => Except.ok v
  | Option.none => Except.error ("KeyError: " ++ k)

/-- Python `v in [None, ""]` for the values of this program: true exactly
for `None` and the empty string (numbers and times never equal either). -/
def isMissing : Value → Bool
  | Value.pynone => true
  | Value.str s => s = ""
  | _ => false

/-- Python `int(b)` for a boolean, as a numeric `Value`. -/
def boolInt (b : Bool) : Value := Value.num (if b then 1 else 0)

/-- The value of a possibly-missing field after the zero-imputation pass:
`0` when missing, unchanged otherwise. -/
def imputeVal (v : Value) : Value := if isMissing v then Value.num 0 else v

/-- The dict `status_map` of `app.py` lines 21–26, as the lookup Python performs:
`status_map[v]` succeeds only on the four known status strings. -/
def status_map : Value → Option ℚ
  | Value.str "Completed" => some 0
  | Value.str "Cancelled by Customer" => some 1
  | Value.str "Cancelled by Driver" => some 2
  | Value.str "Incomplete" => some 3
  | _ => Option.none

/-- The dict `payment_map` of `app.py` lines 28–34. -/
def payment_map : Value → Option ℚ
  | Value.str "Cash" => some 0
  | Value.str "Card" => some 1
  | Value.str "Wallet" => some 2
  | Value.str "UPI" => some 3
  | Value.str "Other" => some 4
  | _ => Option.none

/-- Python `v.hour`: succeeds only on a datetime value (`AttributeError`
otherwise). -/
def hourOf : Value → Except String ℕ
  | Value.time h _ => Except.ok h
  | _ => Except.error "AttributeError: hour"

/-- One iteration of the imputation loop (`app.py` lines 48–50):
read `d[col]` (may `KeyError`), and overwrite it with `0` when missing. -/
def imputeZero (d : Dict) (col : String) : Except String Dict := do
  let v ← getk d col
  pure (if isMissing v then setk d col (Value.num 0) else d)

/-- Lines 42–45 of `app.py` (`# Missing-value flags`): store the four
missing-value flags. -/
def flagsPhase (d : Dict) : Except String Dict := do
  let bv ← getk d "Booking Value"
  let d := setk d "missing_booking_value" (boolInt (isMissing bv))
  let pm ← getk d "Payment Method"
  let d := setk d "missing_payment_method" (boolInt (isMissing pm))
  let dr ← getk d "Driver Ratings"
  let d := setk d "missing_driver_rating" (boolInt (isMissing dr))
  let cr ← getk d "Customer Rating"
  pure (setk d "missing_customer_rating" (boolInt (isMissing cr)))

/-- Lines 48–50 of `app.py` (`# Replace missing with zero`): the imputation
loop over the three numeric columns, unrolled. -/
def imputePhase (d : Dict) : Except String Dict := do
  let d ← imputeZero d "Booking Value"
  let d ← imputeZero d "Customer Rating"
  imputeZero d "Driver Ratings"

/-- Lines 53–56 of `app.py` (`# Binary flags for booking status`). -/
def statusFlagsPhase (d : Dict) : Except String Dict := do
  let status ← getk d "Booking Status"
  let d := setk d "is_cancelled_customer"
      (boolInt (status = Value.str "Cancelled by Customer"))
  let d := setk d "is_cancelled_driver"
      (boolInt (status = Value.str "Cancelled by Driver"))
  pure (setk d "is_incomplete" (boolInt (status = Value.str "Incomplete")))

/-- Line 59 of `app.py` (`# Extract hour`). -/
def hourPhase (d : Dict) : Except String Dict := do
  let pt ← getk d "Pickup Time"
  let h ← hourOf pt
  pure (setk d "hour" (Value.num h))

/-- Lines 62–63 of `app.py` (`# Encode categorical values`): overwrite the two
categorical fields with their integer codes; a value absent from its map is
an uncaught `KeyError`. -/
def encodePhase (d : Dict) : Except String Dict := do
  let bs ← getk d "Booking Status"
  let sc ← match status_map bs with
    | some c => Except.ok c
    | Option.none => Except.error "KeyError: status_map"
  let d := setk d "Booking Status" (Value.num sc)
  let pm ← getk d "Payment Method"
  let pc ← match payment_map pm with
    | some c => Except.ok c
    | Option.none => Except.error "KeyError: payment_map"
  pure (setk d "Payment Method" (Value.num pc))

/-- The fixed feature order list of `app.py` lines 66–74. -/
def ordered : List String :=
  ["Avg VTAT", "Ride Distance", "Booking Value",
   "Customer Rating", "Driver Ratings",
   "Booking Status", "Payment Method",
   "missing_booking_value", "missing_payment_method",
   "missing_driver_rating", "missing_customer_rating",
   "is_cancelled_customer", "is_cancelled_driver", "is_incomplete",
   "hour"]

/-- Lines 66–76 of `app.py` (`# Feature order`): read the 15 columns back from
the dict in the fixed order of the `ordered` list. -/
def readRow (d : Dict) : Except String (List Value) := do
  let c0 ← getk d "Avg VTAT"
  let c1 ← getk d "Ride Distance"
  let c2 ← getk d "Booking Value"
  let c3 ← getk d "Customer Rating"
  let c4 ← getk d "Driver Ratings"
  let c5 ← getk d "Booking Status"
  let c6 ← getk d "Payment Method"
  let c7 ← getk d "missing_booking_value"
  let c8 ← getk d "missing_payment_method"
  let c9 ← getk d "missing_driver_rating"
  let c10 ← getk d "missing_customer_rating"
  let c11 ← getk d "is_cancelled_customer"
  let c12 ← getk d "is_cancelled_driver"
  let c13 ← getk d "is_incomplete"
  let c14 ← getk d "hour"
  pure [c0, c1, c2, c3, c4, c5, c6, c7, c8, c9, c10, c11, c12, c13, c14]

/-- The function `preprocess` of `app.py` lines 39–76: the five comment-delimited blocks
of the Python function in their original order, then the row readback. The
Python function mutates `input_data` in place and returns a one-row
DataFrame; we return the final state of the dict together with the row. An
uncaught Python exception is the `Except.error` branch. -/
def preprocess (input_data : Dict) : Except String (Dict × List Value) := do
  let d ← flagsPhase input_data
  let d ← imputePhase d
  let d ← statusFlagsPhase d
  let d ← hourPhase d
  let d ← encodePhase d
  let row ← readRow d
  pure (d, row)

/-- The input dict exactly as the UI assembles it (`app.py` lines 130–139). -/
def mkRecord (avg_vtat ride_distance booking_value customer_rating
    driver_ratings booking_status payment_method pickup_time : Value) : Dict :=
  [("Avg VTAT", avg_vtat),
   ("Ride Distance", ride_distance),
   ("Booking Value", booking_value),
   ("Customer Rating", customer_rating),
   ("Driver Ratings", driver_ratings),
   ("Booking Status", booking_status),
   ("Payment Method", payment_method),
   ("Pickup Time", pickup_time)]

/-- The 15-element row `preprocess` returns on success, in closed form:
raw `Avg VTAT` and `Ride Distance`, the three imputed fields, the two
integer-encoded categorical fields, the four missing flags, the three
status flags, and the hour. -/
def encodedRow (a rd bv cr dr bs pm : Value) (sc pc : ℚ) (h : ℕ) : List Value :=
  [a, rd, imputeVal bv, imputeVal cr, imputeVal dr,
   Value.num sc, Value.num pc,
   boolInt (isMissing bv), boolInt (isMissing pm),
   boolInt (isMissing dr), boolInt (isMissing cr),
   boolInt (bs = Value.str "Cancelled by Customer"),
   boolInt (bs = Value.str "Cancelled by Driver"),
   boolInt (bs = Value.str "Incomplete"),
   Value.num h]

/-- The state of the input dict after a successful `preprocess` call: the
eight original keys (three possibly imputed, the two categorical fields
overwritten with their integer codes) followed by the eight derived keys
`preprocess` adds. -/
def encodedDict (a rd bv cr dr bs pm pt : Value) (sc pc : ℚ) (h : ℕ) : Dict :=
  [("Avg VTAT", a),
   ("Ride Distance", rd),
   ("Booking Value", imputeVal bv),
   ("Customer Rating", imputeVal cr),
   ("Driver Ratings", imputeVal dr),
   ("Booking Status", Value.num sc),
   ("Payment Method", Value.num pc),
   ("Pickup Time", pt),
   ("missing_booking_value", boolInt (isMissing bv)),
   ("missing_payment_method", boolInt (isMissing pm)),
   ("missing_driver_rating", boolInt (isMissing dr)),
   ("missing_customer_rating", boolInt (isMissing cr)),
   ("is_cancelled_customer", boolInt (bs = Value.str "Cancelled by Customer")),
   ("is_cancelled_driver", boolInt (bs = Value.str "Cancelled by Driver")),
   ("is_incomplete", boolInt (bs = Value.str "Incomplete")),
   ("hour", Value.num h)]


/-- Membership of a value in the program's missing-value sentinel list
`[None, ""]`, written out as the spec's "absent/empty". -/
def absentVal (v : Value) : Prop := v = Value.pynone ∨ v = Value.str ""

instance (v : Value) : Decidable (absentVal v) := by
  unfold absentVal; infer_instance

/-- The classifier, an external collaborator: the app only consumes
`model.predict_proba(X)` (a list of probability rows) and
`model.predict(X)` (a list of predicted classes). -/
structure Classifier where
  predict_proba : List Value → List (List ℚ)
  predict : List Value → List ℚ

/-- Python `xs[i]` on a list: `IndexError` out of range. -/
def pyGet {α : Type _} (xs : List α) (i : ℕ) : Except String α :=
  match xs.get? i with
  | some a => Except.ok a
  | Option.none => Except.error "IndexError"

/-- The prediction block of tab 1 (`app.py` lines 141–159): preprocess the
input, read `predict_proba(X)[0][1]` as the completion probability, read
`predict(X)[0]`, and report success ("likely to complete") exactly when the
predicted class equals 1. The returned pair is (displayed probability,
willComplete). -/
def runPrediction (model : Classifier) (input_data : Dict) :
    Except String (ℚ × Bool) := do
  let (_, X) ← preprocess input_data
  let probaRow ← pyGet (model.predict_proba X) 0
  let prob ← pyGet probaRow 1
  let pred ← pyGet (model.predict X) 0
  pure (prob, pred = 1)

/-- The end-to-end scenario record of spec §8: avgVtat 10, distance 5,
booking value 200, ratings 4.5 and 4.8, Completed, Card, pickup 14:30. -/
def sampleRecord : Dict :=
  mkRecord (Value.num 10) (Value.num 5) (Value.num 200) (Value.num 4.5)
    (Value.num 4.8) (Value.str "Completed") (Value.str "Card") (Value.time 14 30)

/-- The state of `sampleRecord` after `preprocess` mutates it. -/
def sampleDict : Dict :=
  [("Avg VTAT", Value.num 10),
   ("Ride Distance", Value.num 5),
   ("Booking Value", Value.num 200),
   ("Customer Rating", Value.num 4.5),
   ("Driver Ratings", Value.num 4.8),
   ("Booking Status", Value.num 0),
   ("Payment Method", Value.num 1),
   ("Pickup Time", Value.time 14 30),
   ("missing_booking_value", Value.num 0),
   ("missing_payment_method", Value.num 0),
   ("missing_driver_rating", Value.num 0),
   ("missing_customer_rating", Value.num 0),
   ("is_cancelled_customer", Value.num 0),
   ("is_cancelled_driver", Value.num 0),
   ("is_incomplete", Value.num 0),
   ("hour", Value.num 14)]

/-- The feature row of `sampleRecord`. -/
def sampleRow : List Value :=
  [Value.num 10, Value.num 5, Value.num 200, Value.num 4.5, Value.num 4.8,
   Value.num 0, Value.num 1, Value.num 0, Value.num 0, Value.num 0,
   Value.num 0, Value.num 0, Value.num 0, Value.num 0, Value.num 14]

/-- Record `sampleRecord` with the booking value an explicit `0`. -/
def zeroBVRecord : Dict :=
  mkRecord (Value.num 10) (Value.num 5) (Value.num 0) (Value.num 4.5)
    (Value.num 4.8) (Value.str "Completed") (Value.str "Card") (Value.time 14 30)

/-- Dict state after preprocessing `zeroBVRecord`. -/
def zeroBVDict : Dict := setk sampleDict "Booking Value" (Value.num 0)

/-- Feature row of `zeroBVRecord`: booking value 0, missing flag 0. -/
def zeroBVRow : List Value := sampleRow.set 2 (Value.num 0)

/-- Record `sampleRecord` with the booking value absent (`None`). -/
def absentBVRecord : Dict :=
  mkRecord (Value.num 10) (Value.num 5) Value.pynone (Value.num 4.5)
    (Value.num 4.8) (Value.str "Completed") (Value.str "Card") (Value.time 14 30)

/-- Dict state after preprocessing `absentBVRecord`: the booking value was
imputed to 0 and its missing flag set. -/
def absentBVDict : Dict :=
  setk (setk sampleDict "Booking Value" (Value.num 0))
    "missing_booking_value" (Value.num 1)

/-- Feature row of `absentBVRecord`: booking value imputed to 0, missing
flag 1. -/
def absentBVRow : List Value := (sampleRow.set 2 (Value.num 0)).set 7 (Value.num 1)

/-- Record `sampleRecord` with an unrecognized payment method string. -/
def badPaymentRecord : Dict :=
  mkRecord (Value.num 10) (Value.num 5) (Value.num 200) (Value.num 4.5)
    (Value.num 4.8) (Value.str "Completed") (Value.str "Bitcoin") (Value.time 14 30)

/-- A stand-in classifier that predicts class 1 with probability 3/4. -/
def sampleModel : Classifier :=
  ⟨fun _ => [[1/4, 3/4]], fun _ => [1]⟩

/-- A cancelled-by-customer, UPI record otherwise like `sampleRecord`. -/
def ccRecord : Dict :=
  mkRecord (Value.num 10) (Value.num 5) (Value.num 200) (Value.num 4.5)
    (Value.num 4.8) (Value.str "Cancelled by Customer") (Value.str "UPI") (Value.time 14 30)

/-- Dict state after preprocessing `ccRecord`. -/
def ccDict : Dict :=
  setk (setk (setk sampleDict "Booking Status" (Value.num 1))
    "Payment Method" (Value.num 3)) "is_cancelled_customer" (Value.num 1)

/-- Feature row of `ccRecord`. -/
def ccRow : List Value :=
  ((sampleRow.set 5 (Value.num 1)).set 6 (Value.num 3)).set 11 (Value.num 1)

instance {ε α : Type _} [DecidableEq ε] [DecidableEq α] : DecidableEq (Except ε α) := fun x y =>
  match x, y with
  | Except.ok a, Except.ok b =>
      if h : a = b then isTrue (by rw [h])
      else isFalse (fun hc => h (by injection hc))
  | Except.error e, Except.error f =>
      if h : e = f then isTrue (by rw [h])
      else isFalse (fun hc => h (by injection hc))
  | Except.ok _, Except.error _ => isFalse (fun hc => by injection hc)
  | Except.error _, Except.ok _ => isFalse (fun hc => by injection hc)

@[simp] theorem ebind_ok {ε α β : Type _} (a : α) (f : α → Except ε β) :
    (Except.ok a : Except ε α) >>= f = f a := rfl

@[simp] theorem ebind_error {ε α β : Type _} (e : ε) (f : α → Except ε β) :
    (Except.error e : Except ε α) >>= f = Except.error e := rfl

@[simp] theorem epure_eq {ε α : Type _} (a : α) : (pure a : Except ε α) = Except.ok a := rfl

/-- Writing back the value a key already holds leaves the dict unchanged. -/
theorem setk_lookup_self (d : Dict) (col : String) (v : Value)
    (h : lookupk d col = some v) : setk d col v = d := by
  induction d with
  | nil => simp [lookupk] at h
  | cons p rest ih =>
    obtain ⟨k', w⟩ := p
    by_cases hk : k' = col
    · subst hk
      simp [lookupk] at h
      simp [setk, h]
    · simp [lookupk, hk] at h
      simp [setk, hk, ih h]

/-- The imputation step always stores the `imputeVal` of the current value:
when the value is present and not missing, overwriting it with itself is the
identity, so the conditional Python assignment and the unconditional
`setk … (imputeVal v)` agree. -/
theorem imputeZero_eq (d : Dict) (col : String) :
    imputeZero d col = (getk d col) >>= fun v => Except.ok (setk d col (imputeVal v)) := by
  cases hg : lookupk d col with
  | none => simp [imputeZero, getk, hg]
  | some v =>
    cases hm : isMissing v
    · simp [imputeZero, getk, hg, imputeVal, hm, setk_lookup_self d col v hg]
    · simp [imputeZero, getk, hg, imputeVal, hm]

set_option maxHeartbeats 2000000 in
/-- Master characterization: on a UI-shaped record, `preprocess` fails
exactly when the pickup time has no `.hour` or a categorical value misses
its encoding map (in that evaluation order), and on success returns the
`encodedDict` state and the `encodedRow` features. -/
theorem preprocess_mkRecord (a rd bv cr dr bs pm pt : Value) :
    preprocess (mkRecord a rd bv cr dr bs pm pt) =
      match hourOf pt with
      | Except.error e => Except.error e
      | Except.ok h =>
        match status_map bs with
        | Option.none => Except.error "KeyError: status_map"
        | some sc =>
          match payment_map pm with
          | Option.none => Except.error "KeyError: payment_map"
          | some pc =>
            Except.ok (encodedDict a rd bv cr dr bs pm pt sc pc h,
                       encodedRow a rd bv cr dr bs pm sc pc h) := by
  rcases hpt : hourOf pt with e | h <;>
    rcases hsm : status_map bs with _ | sc <;>
    rcases hpm : payment_map pm with _ | pc <;>
    simp [preprocess, mkRecord, flagsPhase, imputePhase, imputeZero_eq,
      statusFlagsPhase, hourPhase, encodePhase, readRow,
      getk, lookupk, setk, encodedDict, encodedRow, hpt, hsm, hpm]

/-- Success-shape corollary of the master characterization, in the form the
individual properties use. -/
theorem preprocess_ok_shape (a rd bv cr dr bs pm pt : Value) (d : Dict)
    (row : List Value)
    (hok : preprocess (mkRecord a rd bv cr dr bs pm pt) = Except.ok (d, row)) :
    ∃ sc pc h, status_map bs = some sc ∧ payment_map pm = some pc ∧
      hourOf pt = Except.ok h ∧
      d = encodedDict a rd bv cr dr bs pm pt sc pc h ∧
      row = encodedRow a rd bv cr dr bs pm sc pc h := by
  rw [preprocess_mkRecord] at hok
  rcases hpt : hourOf pt with e | h <;> rw [hpt] at hok
  · exact absurd hok (by simp)
  rcases hsm : status_map bs with _ | sc <;> rw [hsm] at hok
  · exact absurd hok (by simp)
  rcases hpm : payment_map pm with _ | pc <;> rw [hpm] at hok
  · exact absurd hok (by simp)
  simp only [Except.ok.injEq, Prod.mk.injEq] at hok
  exact ⟨sc, pc, h, rfl, rfl, rfl, hok.1.symm, hok.2.symm⟩

theorem isMissing_iff_absent (v : Value) : isMissing v = true ↔ absentVal v := by
  cases v <;> simp [isMissing, absentVal]

theorem isMissing_false_iff (v : Value) : isMissing v = false ↔ ¬ absentVal v := by
  rw [← isMissing_iff_absent]
  cases isMissing v <;> simp

theorem boolInt_isMissing (v : Value) :
    boolInt (isMissing v) = Value.num (if absentVal v then 1 else 0) := by
  by_cases h : absentVal v
  · rw [(isMissing_iff_absent v).mpr h]
    simp [boolInt, h]
  · rw [(isMissing_false_iff v).mpr h]
    simp [boolInt, h]

theorem boolInt_decide (p : Prop) [Decidable p] :
    boolInt (decide p) = Value.num (if p then 1 else 0) := by
  by_cases h : p <;> simp [boolInt, h]

/-- C1: for every valid record, `preprocess` returns a row of exactly 15
fields in the fixed order avgVtat, rideDistance, bookingValue(imputed),
customerRating(imputed), driverRating(imputed), bookingStatusEncoded,
paymentMethodEncoded, the four missing flags, the three cancellation
flags, hour. -/
theorem C1_fifteen_fields_fixed_order (a rd bv cr dr bs pm pt : Value)
    (d : Dict) (row : List Value)
    (hok : preprocess (mkRecord a rd bv cr dr bs pm pt) = Except.ok (d, row)) :
    row.length = 15 ∧
    ∃ sc pc h, status_map bs = some sc ∧ payment_map pm = some pc ∧
      hourOf pt = Except.ok h ∧
      row = [a, rd, imputeVal bv, imputeVal cr, imputeVal dr,
             Value.num sc, Value.num pc,
             Value.num (if absentVal bv then 1 else 0),
             Value.num (if absentVal pm then 1 else 0),
             Value.num (if absentVal dr then 1 else 0),
             Value.num (if absentVal cr then 1 else 0),
             Value.num (if bs = Value.str "Cancelled by Customer" then 1 else 0),
             Value.num (if bs = Value.str "Cancelled by Driver" then 1 else 0),
             Value.num (if bs = Value.str "Incomplete" then 1 else 0),
             Value.num h] := by
  obtain ⟨sc, pc, h, hsm, hpm, hpt, hd, hrow⟩ :=
    preprocess_ok_shape a rd bv cr dr bs pm pt d row hok
  subst hrow
  refine ⟨rfl, sc, pc, h, hsm, hpm, hpt, ?_⟩
  simp [encodedRow, boolInt_isMissing, boolInt_decide]

theorem C1_fifteen_fields_fixed_order_witness :
    sampleRow.length = 15 ∧
    ∃ sc pc h, status_map (Value.str "Completed") = some sc ∧
      payment_map (Value.str "Card") = some pc ∧
      hourOf (Value.time 14 30) = Except.ok h ∧
      sampleRow = [Value.num 10, Value.num 5, Value.num 200, Value.num 4.5,
        Value.num 4.8, Value.num sc, Value.num pc, Value.num 0, Value.num 0,
        Value.num 0, Value.num 0, Value.num 0, Value.num 0, Value.num 0,
        Value.num h] :=
  C1_fifteen_fields_fixed_order (Value.num 10) (Value.num 5) (Value.num 200)
    (Value.num 4.5) (Value.num 4.8) (Value.str "Completed") (Value.str "Card")
    (Value.time 14 30) sampleDict sampleRow rfl

/-- C2: each of the four missing flags is 1 exactly when the corresponding
field is absent/empty, and an absent bookingValue (resp. customerRating,
driverRating) is imputed to 0 in the output row; in particular, absent
bookingValue gives flag 1 and imputed value 0. -/
theorem C2_missing_flags_and_imputation (a rd bv cr dr bs pm pt : Value)
    (d : Dict) (row : List Value)
    (hok : preprocess (mkRecord a rd bv cr dr bs pm pt) = Except.ok (d, row)) :
    row.get? 7 = some (Value.num (if absentVal bv then 1 else 0)) ∧
    row.get? 8 = some (Value.num (if absentVal pm then 1 else 0)) ∧
    row.get? 9 = some (Value.num (if absentVal dr then 1 else 0)) ∧
    row.get? 10 = some (Value.num (if absentVal cr then 1 else 0)) ∧
    (absentVal bv → row.get? 7 = some (Value.num 1) ∧ row.get? 2 = some (Value.num 0)) ∧
    (absentVal cr → row.get? 10 = some (Value.num 1) ∧ row.get? 3 = some (Value.num 0)) ∧
    (absentVal dr → row.get? 9 = some (Value.num 1) ∧ row.get? 4 = some (Value.num 0)) := by
  obtain ⟨sc, pc, h, hsm, hpm, hpt, hd, hrow⟩ :=
    preprocess_ok_shape a rd bv cr dr bs pm pt d row hok
  subst hrow
  refine ⟨?_, ?_, ?_, ?_, ?_, ?_, ?_⟩
  · simp [encodedRow, boolInt_isMissing]
  · simp [encodedRow, boolInt_isMissing]
  · simp [encodedRow, boolInt_isMissing]
  · simp [encodedRow, boolInt_isMissing]
  · intro hab
    have hm := (isMissing_iff_absent bv).mpr hab
    exact ⟨by simp [encodedRow, boolInt, hm], by simp [encodedRow, imputeVal, hm]⟩
  · intro hab
    have hm := (isMissing_iff_absent cr).mpr hab
    exact ⟨by simp [encodedRow, boolInt, hm], by simp [encodedRow, imputeVal, hm]⟩
  · intro hab
    have hm := (isMissing_iff_absent dr).mpr hab
    exact ⟨by simp [encodedRow, boolInt, hm], by simp [encodedRow, imputeVal, hm]⟩

theorem C2_missing_flags_and_imputation_witness :
    absentBVRow.get? 7 = some (Value.num 1) ∧
    absentBVRow.get? 8 = some (Value.num 0) ∧
    absentBVRow.get? 9 = some (Value.num 0) ∧
    absentBVRow.get? 10 = some (Value.num 0) ∧
    (absentVal Value.pynone →
      absentBVRow.get? 7 = some (Value.num 1) ∧ absentBVRow.get? 2 = some (Value.num 0)) ∧
    (absentVal (Value.num 4.5) →
      absentBVRow.get? 10 = some (Value.num 1) ∧ absentBVRow.get? 3 = some (Value.num 0)) ∧
    (absentVal (Value.num 4.8) →
      absentBVRow.get? 9 = some (Value.num 1) ∧ absentBVRow.get? 4 = some (Value.num 0)) :=
  C2_missing_flags_and_imputation (Value.num 10) (Value.num 5) Value.pynone
    (Value.num 4.5) (Value.num 4.8) (Value.str "Completed") (Value.str "Card")
    (Value.time 14 30) absentBVDict absentBVRow rfl

/-- C3: exactly one of isCancelledCustomer, isCancelledDriver, isIncomplete
is 1 when bookingStatus is respectively Cancelled by Customer, Cancelled by
Driver, Incomplete, and all three are 0 when it is Completed. -/
theorem C3_status_flag_exclusivity (a rd bv cr dr bs pm pt : Value)
    (d : Dict) (row : List Value)
    (hok : preprocess (mkRecord a rd bv cr dr bs pm pt) = Except.ok (d, row)) :
    (bs = Value.str "Completed" →
      row.get? 11 = some (Value.num 0) ∧ row.get? 12 = some (Value.num 0) ∧
      row.get? 13 = some (Value.num 0)) ∧
    (bs = Value.str "Cancelled by Customer" →
      row.get? 11 = some (Value.num 1) ∧ row.get? 12 = some (Value.num 0) ∧
      row.get? 13 = some (Value.num 0)) ∧
    (bs = Value.str "Cancelled by Driver" →
      row.get? 11 = some (Value.num 0) ∧ row.get? 12 = some (Value.num 1) ∧
      row.get? 13 = some (Value.num 0)) ∧
    (bs = Value.str "Incomplete" →
      row.get? 11 = some (Value.num 0) ∧ row.get? 12 = some (Value.num 0) ∧
      row.get? 13 = some (Value.num 1)) := by
  obtain ⟨sc, pc, h, hsm, hpm, hpt, hd, hrow⟩ :=
    preprocess_ok_shape a rd bv cr dr bs pm pt d row hok
  subst hrow
  refine ⟨?_, ?_, ?_, ?_⟩ <;> intro hbs <;> subst hbs <;>
    exact ⟨by simp [encodedRow, boolInt], by simp [encodedRow, boolInt],
           by simp [encodedRow, boolInt]⟩

theorem C3_status_flag_exclusivity_witness :
    (Value.str "Cancelled by Customer" = Value.str "Completed" →
      ccRow.get? 11 = some (Value.num 0) ∧ ccRow.get? 12 = some (Value.num 0) ∧
      ccRow.get? 13 = some (Value.num 0)) ∧
    (Value.str "Cancelled by Customer" = Value.str "Cancelled by Customer" →
      ccRow.get? 11 = some (Value.num 1) ∧ ccRow.get? 12 = some (Value.num 0) ∧
      ccRow.get? 13 = some (Value.num 0)) ∧
    (Value.str "Cancelled by Customer" = Value.str "Cancelled by Driver" →
      ccRow.get? 11 = some (Value.num 0) ∧ ccRow.get? 12 = some (Value.num 1) ∧
      ccRow.get? 13 = some (Value.num 0)) ∧
    (Value.str "Cancelled by Customer" = Value.str "Incomplete" →
      ccRow.get? 11 = some (Value.num 0) ∧ ccRow.get? 12 = some (Value.num 0) ∧
      ccRow.get? 13 = some (Value.num 1)) :=
  C3_status_flag_exclusivity (Value.num 10) (Value.num 5) (Value.num 200)
    (Value.num 4.5) (Value.num 4.8) (Value.str "Cancelled by Customer")
    (Value.str "UPI") (Value.time 14 30) ccDict ccRow rfl

/-- C4: the categorical encodings are exactly the fixed lookups
Completed 0, Cancelled by Customer 1, Cancelled by Driver 2, Incomplete 3
and Cash 0, Card 1, Wallet 2, UPI 3, Other 4 (both directions), and in the
output row a Completed status encodes to 0 and a UPI payment to 3. -/
theorem C4_fixed_lookup_encoding (a rd bv cr dr bs pm pt : Value)
    (d : Dict) (row : List Value)
    (hok : preprocess (mkRecord a rd bv cr dr bs pm pt) = Except.ok (d, row)) :
    status_map (Value.str "Completed") = some 0 ∧
    status_map (Value.str "Cancelled by Customer") = some 1 ∧
    status_map (Value.str "Cancelled by Driver") = some 2 ∧
    status_map (Value.str "Incomplete") = some 3 ∧
    payment_map (Value.str "Cash") = some 0 ∧
    payment_map (Value.str "Card") = some 1 ∧
    payment_map (Value.str "Wallet") = some 2 ∧
    payment_map (Value.str "UPI") = some 3 ∧
    payment_map (Value.str "Other") = some 4 ∧
    (∀ v c, status_map v = some c →
      (v = Value.str "Completed" ∧ c = 0) ∨
      (v = Value.str "Cancelled by Customer" ∧ c = 1) ∨
      (v = Value.str "Cancelled by Driver" ∧ c = 2) ∨
      (v = Value.str "Incomplete" ∧ c = 3)) ∧
    (∀ v c, payment_map v = some c →
      (v = Value.str "Cash" ∧ c = 0) ∨ (v = Value.str "Card" ∧ c = 1) ∨
      (v = Value.str "Wallet" ∧ c = 2) ∨ (v = Value.str "UPI" ∧ c = 3) ∨
      (v = Value.str "Other" ∧ c = 4)) ∧
    (bs = Value.str "Completed" → row.get? 5 = some (Value.num 0)) ∧
    (pm = Value.str "UPI" → row.get? 6 = some (Value.num 3)) := by
  obtain ⟨sc, pc, h, hsm, hpm, hpt, hd, hrow⟩ :=
    preprocess_ok_shape a rd bv cr dr bs pm pt d row hok
  subst hrow
  refine ⟨rfl, rfl, rfl, rfl, rfl, rfl, rfl, rfl, rfl, ?_, ?_, ?_, ?_⟩
  · intro v c hv
    unfold status_map at hv
    split at hv <;> simp_all
  · intro v c hv
    unfold payment_map at hv
    split at hv <;> simp_all
  · intro hbs
    subst hbs
    have hsc : sc = 0 := by simpa [status_map] using hsm.symm
    subst hsc
    simp [encodedRow]
  · intro hpmu
    subst hpmu
    have hpc : pc = 3 := by simpa [payment_map] using hpm.symm
    subst hpc
    simp [encodedRow]

theorem C4_fixed_lookup_encoding_witness :
    status_map (Value.str "Completed") = some 0 ∧
    status_map (Value.str "Cancelled by Customer") = some 1 ∧
    status_map (Value.str "Cancelled by Driver") = some 2 ∧
    status_map (Value.str "Incomplete") = some 3 ∧
    payment_map (Value.str "Cash") = some 0 ∧
    payment_map (Value.str "Card") = some 1 ∧
    payment_map (Value.str "Wallet") = some 2 ∧
    payment_map (Value.str "UPI") = some 3 ∧
    payment_map (Value.str "Other") = some 4 ∧
    (∀ v c, status_map v = some c →
      (v = Value.str "Completed" ∧ c = 0) ∨
      (v = Value.str "Cancelled by Customer" ∧ c = 1) ∨
      (v = Value.str "Cancelled by Driver" ∧ c = 2) ∨
      (v = Value.str "Incomplete" ∧ c = 3)) ∧
    (∀ v c, payment_map v = some c →
      (v = Value.str "Cash" ∧ c = 0) ∨ (v = Value.str "Card" ∧ c = 1) ∨
      (v = Value.str "Wallet" ∧ c = 2) ∨ (v = Value.str "UPI" ∧ c = 3) ∨
      (v = Value.str "Other" ∧ c = 4)) ∧
    (Value.str "Completed" = Value.str "Completed" →
      sampleRow.get? 5 = some (Value.num 0)) ∧
    (Value.str "Card" = Value.str "UPI" →
      sampleRow.get? 6 = some (Value.num 3)) :=
  C4_fixed_lookup_encoding (Value.num 10) (Value.num 5) (Value.num 200)
    (Value.num 4.5) (Value.num 4.8) (Value.str "Completed") (Value.str "Card")
    (Value.time 14 30) sampleDict sampleRow rfl

/-- C5: a bookingStatus or paymentMethod outside its encoding map —
including an absent/empty paymentMethod — makes `preprocess` fail with an
error surfaced to the caller; it never returns a row with a default
encoding. -/
theorem C5_unknown_enum_fails (a rd bv cr dr bs pm pt : Value)
    (hbad : status_map bs = Option.none ∨ payment_map pm = Option.none ∨ absentVal pm) :
    ∃ msg, preprocess (mkRecord a rd bv cr dr bs pm pt) = Except.error msg := by
  have hbad2 : status_map bs = Option.none ∨ payment_map pm = Option.none := by
    rcases hbad with h | h | h
    · exact Or.inl h
    · exact Or.inr h
    · rcases h with h | h <;> subst h <;> exact Or.inr rfl
  rw [preprocess_mkRecord]
  rcases hpt : hourOf pt with e | h
  · exact ⟨e, rfl⟩
  rcases hsm : status_map bs with _ | sc
  · exact ⟨"KeyError: status_map", rfl⟩
  rcases hpm : payment_map pm with _ | pc
  · exact ⟨"KeyError: payment_map", rfl⟩
  rcases hbad2 with hb | hb
  · rw [hsm] at hb
    exact Option.noConfusion hb
  · rw [hpm] at hb
    exact Option.noConfusion hb

theorem C5_unknown_enum_fails_witness :
    ∃ msg, preprocess badPaymentRecord = Except.error msg :=
  C5_unknown_enum_fails (Value.num 10) (Value.num 5) (Value.num 200)
    (Value.num 4.5) (Value.num 4.8) (Value.str "Completed")
    (Value.str "Bitcoin") (Value.time 14 30) (Or.inr (Or.inl rfl))

/-- C6 counterexample: on the §8 sample record the first `preprocess` call
succeeds, but calling it again on the same (mutated) record raises a
KeyError instead of yielding the identical vector, because the first call
replaced the Booking Status string with its integer code. -/
theorem C6_idempotence_counterexample :
    preprocess sampleRecord = Except.ok (sampleDict, sampleRow) ∧
    preprocess sampleDict = Except.error "KeyError: status_map" :=
  ⟨rfl, rfl⟩

/-- C6 amended: `preprocess` is deterministic as a function of the record
value, but it is not idempotent on the same record: after any successful
call, a second call on the mutated record always fails with the
status-encoding KeyError. -/
theorem C6_second_call_always_fails (a rd bv cr dr bs pm pt : Value)
    (d : Dict) (row : List Value)
    (hok : preprocess (mkRecord a rd bv cr dr bs pm pt) = Except.ok (d, row)) :
    preprocess d = Except.error "KeyError: status_map" := by
  obtain ⟨sc, pc, h, hsm, hpm, hpt, hd, hrow⟩ :=
    preprocess_ok_shape a rd bv cr dr bs pm pt d row hok
  subst hd
  simp [preprocess, flagsPhase, imputePhase, imputeZero_eq, statusFlagsPhase,
    hourPhase, encodePhase, getk, lookupk, setk, encodedDict, hpt, status_map]

theorem C6_second_call_always_fails_witness :
    preprocess sampleDict = Except.error "KeyError: status_map" :=
  C6_second_call_always_fails (Value.num 10) (Value.num 5) (Value.num 200)
    (Value.num 4.5) (Value.num 4.8) (Value.str "Completed") (Value.str "Card")
    (Value.time 14 30) sampleDict sampleRow rfl

/-- C7 counterexample: `preprocess` is not pure in its record argument: on
the §8 sample record it adds the derived key `hour` and overwrites
`Booking Status` (string → integer code), so the record after the call
differs from the record before. -/
theorem C7_purity_counterexample :
    preprocess sampleRecord = Except.ok (sampleDict, sampleRow) ∧
    sampleDict ≠ sampleRecord ∧
    lookupk sampleRecord "hour" = Option.none ∧
    lookupk sampleDict "hour" = some (Value.num 14) ∧
    lookupk sampleRecord "Booking Status" = some (Value.str "Completed") ∧
    lookupk sampleDict "Booking Status" = some (Value.num 0) := by
  refine ⟨rfl, ?_, by decide, by decide, by decide, by decide⟩
  intro hEq
  have h1 : lookupk sampleDict "hour" = some (Value.num 14) := by decide
  rw [hEq] at h1
  have h2 : lookupk sampleRecord "hour" = Option.none := by decide
  rw [h2] at h1
  exact Option.noConfusion h1

/-- C7 amended: `preprocess` mutates its record in place: on success the
record ends in exactly the `encodedDict` state — the two categorical fields
overwritten with integer codes, missing numerics imputed, and eight derived
keys added — and has no other effect. -/
theorem C7_mutation_shape (a rd bv cr dr bs pm pt : Value)
    (d : Dict) (row : List Value)
    (hok : preprocess (mkRecord a rd bv cr dr bs pm pt) = Except.ok (d, row)) :
    ∃ sc pc h, d = encodedDict a rd bv cr dr bs pm pt sc pc h ∧
      lookupk d "Booking Status" = some (Value.num sc) ∧
      lookupk d "Payment Method" = some (Value.num pc) ∧
      lookupk d "hour" = some (Value.num h) ∧
      lookupk d "Booking Value" = some (imputeVal bv) := by
  obtain ⟨sc, pc, h, hsm, hpm, hpt, hd, hrow⟩ :=
    preprocess_ok_shape a rd bv cr dr bs pm pt d row hok
  subst hd
  exact ⟨sc, pc, h, rfl, by simp [encodedDict, lookupk],
    by simp [encodedDict, lookupk], by simp [encodedDict, lookupk],
    by simp [encodedDict, lookupk]⟩

theorem C7_mutation_shape_witness :
    ∃ sc pc h, sampleDict = encodedDict (Value.num 10) (Value.num 5)
        (Value.num 200) (Value.num 4.5) (Value.num 4.8)
        (Value.str "Completed") (Value.str "Card") (Value.time 14 30) sc pc h ∧
      lookupk sampleDict "Booking Status" = some (Value.num sc) ∧
      lookupk sampleDict "Payment Method" = some (Value.num pc) ∧
      lookupk sampleDict "hour" = some (Value.num h) ∧
      lookupk sampleDict "Booking Value" = some (imputeVal (Value.num 200)) :=
  C7_mutation_shape (Value.num 10) (Value.num 5) (Value.num 200)
    (Value.num 4.5) (Value.num 4.8) (Value.str "Completed") (Value.str "Card")
    (Value.time 14 30) sampleDict sampleRow rfl

/-- C8: the §8 scenario record (avgVtat 10, distance 5, value 200, ratings
4.5/4.8, Completed, Card, 14:30) encodes to exactly
[10,5,200,4.5,4.8,0,1,0,0,0,0,0,0,0,14]. -/
theorem C8_end_to_end_scenario :
    preprocess (mkRecord (Value.num 10) (Value.num 5) (Value.num 200)
      (Value.num 4.5) (Value.num 4.8) (Value.str "Completed")
      (Value.str "Card") (Value.time 14 30)) =
    Except.ok (sampleDict,
      [Value.num 10, Value.num 5, Value.num 200, Value.num 4.5, Value.num 4.8,
       Value.num 0, Value.num 1, Value.num 0, Value.num 0, Value.num 0,
       Value.num 0, Value.num 0, Value.num 0, Value.num 0, Value.num 14]) := rfl

/-- C9: the prediction block reports exactly the classifier's second
probability component `predict_proba(X)[0][1]` (P(class=1), never the
inverted P(class=0)) and declares the ride likely to complete exactly when
`predict(X)[0] == 1`. -/
theorem C9_label_convention (model : Classifier) (input : Dict) (d : Dict)
    (X : List Value) (p0 p1 cls : ℚ)
    (hpre : preprocess input = Except.ok (d, X))
    (hproba : model.predict_proba X = [[p0, p1]])
    (hpred : model.predict X = [cls]) :
    runPrediction model input = Except.ok (p1, decide (cls = 1)) ∧
    (decide (cls = 1) = true ↔ cls = 1) := by
  constructor
  · simp [runPrediction, hpre, hproba, hpred, pyGet]
  · simp

theorem C9_label_convention_witness :
    runPrediction sampleModel sampleRecord = Except.ok (3/4, decide ((1 : ℚ) = 1)) ∧
    (decide ((1 : ℚ) = 1) = true ↔ (1 : ℚ) = 1) :=
  C9_label_convention sampleModel sampleRecord sampleDict sampleRow
    (1/4) (3/4) 1 rfl rfl rfl

/-- C10: only `None` and the empty string count as absent: any other value
(the numeric 0.0 included) gets flag 0 and passes through unimputed, so an
explicit 0 and an absent bookingValue produce the same numeric field and
differ exactly in the missing flag. -/
theorem C10_absent_only_none_and_empty (a rd bv cr dr bs pm pt : Value)
    (d : Dict) (row : List Value) (d0 dn : Dict) (row0 rown : List Value)
    (hok : preprocess (mkRecord a rd bv cr dr bs pm pt) = Except.ok (d, row))
    (h0 : preprocess (mkRecord a rd (Value.num 0) cr dr bs pm pt) = Except.ok (d0, row0))
    (hn : preprocess (mkRecord a rd Value.pynone cr dr bs pm pt) = Except.ok (dn, rown)) :
    (¬ absentVal bv → row.get? 7 = some (Value.num 0) ∧ row.get? 2 = some bv) ∧
    (¬ absentVal cr → row.get? 10 = some (Value.num 0) ∧ row.get? 3 = some cr) ∧
    (¬ absentVal dr → row.get? 9 = some (Value.num 0) ∧ row.get? 4 = some dr) ∧
    (¬ absentVal pm → row.get? 8 = some (Value.num 0)) ∧
    row0.get? 2 = some (Value.num 0) ∧ row0.get? 7 = some (Value.num 0) ∧
    rown.get? 2 = some (Value.num 0) ∧ rown.get? 7 = some (Value.num 1) ∧
    rown = row0.set 7 (Value.num 1) := by
  obtain ⟨sc, pc, h, hsm, hpm, hpt, hd, hrow⟩ :=
    preprocess_ok_shape a rd bv cr dr bs pm pt d row hok
  obtain ⟨sc0, pc0, h0h, hsm0, hpm0, hpt0, hd0, hrow0⟩ :=
    preprocess_ok_shape a rd (Value.num 0) cr dr bs pm pt d0 row0 h0
  obtain ⟨sc1, pc1, h1h, hsm1, hpm1, hpt1, hd1, hrow1⟩ :=
    preprocess_ok_shape a rd Value.pynone cr dr bs pm pt dn rown hn
  have hsc : sc1 = sc0 := (Option.some.inj (hsm0.symm.trans hsm1)).symm
  have hpc : pc1 = pc0 := (Option.some.inj (hpm0.symm.trans hpm1)).symm
  have hhh : h1h = h0h := by
    have h2 := hpt0.symm.trans hpt1
    injection h2 with h3
    exact h3.symm
  subst hrow hrow0 hrow1 hsc hpc hhh
  refine ⟨?_, ?_, ?_, ?_, ?_, ?_, ?_, ?_, ?_⟩
  · intro hnab
    have hm := (isMissing_false_iff bv).mpr hnab
    exact ⟨by simp [encodedRow, boolInt, hm], by simp [encodedRow, imputeVal, hm]⟩
  · intro hnab
    have hm := (isMissing_false_iff cr).mpr hnab
    exact ⟨by simp [encodedRow, boolInt, hm], by simp [encodedRow, imputeVal, hm]⟩
  · intro hnab
    have hm := (isMissing_false_iff dr).mpr hnab
    exact ⟨by simp [encodedRow, boolInt, hm], by simp [encodedRow, imputeVal, hm]⟩
  · intro hnab
    have hm := (isMissing_false_iff pm).mpr hnab
    simp [encodedRow, boolInt, hm]
  · simp [encodedRow, imputeVal, isMissing]
  · simp [encodedRow, boolInt, isMissing]
  · simp [encodedRow, imputeVal, isMissing]
  · simp [encodedRow, boolInt, isMissing]
  · simp [encodedRow, imputeVal, isMissing, boolInt, List.set]

theorem C10_absent_only_none_and_empty_witness :
    (¬ absentVal (Value.num 200) →
      sampleRow.get? 7 = some (Value.num 0) ∧ sampleRow.get? 2 = some (Value.num 200)) ∧
    (¬ absentVal (Value.num 4.5) →
      sampleRow.get? 10 = some (Value.num 0) ∧ sampleRow.get? 3 = some (Value.num 4.5)) ∧
    (¬ absentVal (Value.num 4.8) →
      sampleRow.get? 9 = some (Value.num 0) ∧ sampleRow.get? 4 = some (Value.num 4.8)) ∧
    (¬ absentVal (Value.str "Card") → sampleRow.get? 8 = some (Value.num 0)) ∧
    zeroBVRow.get? 2 = some (Value.num 0) ∧ zeroBVRow.get? 7 = some (Value.num 0) ∧
    absentBVRow.get? 2 = some (Value.num 0) ∧ absentBVRow.get? 7 = some (Value.num 1) ∧
    absentBVRow = zeroBVRow.set 7 (Value.num 1) :=
  C10_absent_only_none_and_empty (Value.num 10) (Value.num 5) (Value.num 200)
    (Value.num 4.5) (Value.num 4.8) (Value.str "Completed") (Value.str "Card")
    (Value.time 14 30) sampleDict sampleRow zeroBVDict absentBVDict
    zeroBVRow absentBVRow rfl rfl rfl
